import Mathlib

/-!
# Verification of the PlayPulse player-performance pipeline

Shallow embedding of the core of the `flask-playpulse-api` repository:
the metrics deriver and anomaly filter (`services/data_collection.py`),
the prediction engine (`services/ml_models.py`), the throttled fetcher
(`services/data_collection.py`), the job orchestration of
`routes/players.py`, and the simple-prediction route of
`routes/predictions.py`.  Machine floats of the source are modelled as
rationals; only branch structure and ordering of comparisons matter for
the properties proved here.
-/

namespace PlayPulse

/-! ## Metrics deriver (`calculate_performance_metrics`, data_collection.py 287-333)

One raw event row of the player within one match.  Only the fields the
deriver reads are carried: the event type string, the pass outcome
(pandas `NaN` encoded as `none`; `sum(passes['pass_outcome'].isna())`
counts completed passes) and the shot outcome. -/
structure EventRow where
  etype : String
  pass_outcome : Option String
  shot_outcome : Option String
  deriving DecidableEq, Repr

/-- `len(match_events[match_events['type'] == 'Pass'])` -/
def totalPasses (evs : List EventRow) : ℕ :=
  (evs.filter (fun e => e.etype = "Pass")).length

/-- `sum(passes['pass_outcome'].isna())` — a pass with no recorded outcome
is completed. -/
def completedPasses (evs : List EventRow) : ℕ :=
  ((evs.filter (fun e => e.etype = "Pass")).filter
    (fun e => e.pass_outcome = none)).length

/-- `completed_passes / total_passes if total_passes > 0 else 0`
(data_collection.py line 298). -/
def passCompletionRate (evs : List EventRow) : ℚ :=
  if 0 < totalPasses evs then
    (completedPasses evs : ℚ) / (totalPasses evs : ℚ)
  else 0

theorem completedPasses_le_totalPasses (evs : List EventRow) :
    completedPasses evs ≤ totalPasses evs :=
  List.length_filter_le _ _

/-! ## Throttled fetcher (`_throttled_request`, data_collection.py 350-364)

The loop `for attempt in range(max_retries)` with `time.sleep(retry_delay)`
and `retry_delay *= 2` between failed attempts.  The underlying call is a
function from the attempt number to a result; the embedding additionally
returns the number of attempts made and the list of sleep durations. -/

def maxRetries : ℕ := 3

/-- One unrolling of the retry loop: `fuel` counts the remaining loop
iterations (initially `maxRetries`, so the `fuel = 0` branch is the
loop falling through, which the source cannot reach because the last
iteration re-raises). -/
def throttledGo {α : Type} (f : ℕ → Except String α) :
    ℕ → ℕ → ℕ → List ℕ → ℕ × List ℕ × Except String α
  | 0, attempt, _, sleeps => (attempt, sleeps, Except.error "loop exhausted")
  | fuel + 1, attempt, retryDelay, sleeps =>
    match f attempt with
    | Except.ok a => (attempt + 1, sleeps, Except.ok a)
    | Except.error e =>
      if attempt < maxRetries - 1 then
        throttledGo f fuel (attempt + 1) (retryDelay * 2) (sleeps ++ [retryDelay])
      else
        (attempt + 1, sleeps, Except.error e)

/-- `_throttled_request`: 3 attempts, initial delay 1 second, doubling. -/
def throttledRequest {α : Type} (f : ℕ → Except String α) :
    ℕ × List ℕ × Except String α :=
  throttledGo f maxRetries 0 1 []

/-! ## Anomaly filter (`_detect_and_handle_anomalies`, data_collection.py 366-436)
and the sort/renumber tail of `calculate_performance_metrics` (lines 338-345).

One derived per-match metrics record.  Only the fields the filter, the
sort and the renumbering read are carried; dates are modelled as
integers (only their order matters). -/
structure MatchMetrics where
  match_id : ℕ
  match_date : ℤ
  pass_completion_rate : ℚ
  total_events : ℚ
  defensive_actions : ℚ
  team_pass_completion : Option ℚ
  match_num : ℕ
  deriving DecidableEq, Repr

/-- Projection used for `self.performance_metrics[metric].values` over the
three metrics the filter checks. -/
def metricProj (name : String) (m : MatchMetrics) : ℚ :=
  if name = "pass_completion_rate" then m.pass_completion_rate
  else if name = "total_events" then m.total_events
  else m.defensive_actions

/-- `np.mean(values)` -/
def qMean (xs : List ℚ) : ℚ := xs.sum / (xs.length : ℚ)

/-- The square of `np.std(values)` (population variance).  The source
compares `z = |x - mean| / std` against the threshold `2.0`; with
`std = sqrt(var)` and `std ≠ 0` this is equivalent to
`(x - mean)^2 > 4 * var`, which is how the z-score test is carried over
to rationals below. -/
def qVar (xs : List ℚ) : ℚ :=
  ((xs.map (fun x => (x - qMean xs) ^ 2)).sum) / (xs.length : ℚ)

/-- `std == 0` skip guard, then `z > anomaly_threshold` (threshold 2.0)
per row, collecting `match_id`s (lines 379-400). -/
def anomalousIdsForMetric (series : List MatchMetrics) (name : String) : List ℕ :=
  let values := series.map (metricProj name)
  let mu := qMean values
  let v := qVar values
  if v = 0 then []
  else
    (series.filter (fun m => (metricProj name m - mu) ^ 2 > 4 * v)).map
      (fun m => m.match_id)

/-- Team-context pass-completion check (lines 402-424): drop the missing
values, require more than 3 of them and nonzero variance, then the same
z-score test on rows that have a team value. -/
def teamAnomalousIds (series : List MatchMetrics) : List ℕ :=
  let tvals := series.filterMap (fun m => m.team_pass_completion)
  if 3 < tvals.length then
    let mu := qMean tvals
    let v := qVar tvals
    if 0 < v then
      (series.filter (fun m =>
        match m.team_pass_completion with
        | none => false
        | some t => (t - mu) ^ 2 > 4 * v)).map (fun m => m.match_id)
    else []
  else []

def metricsToCheck : List String :=
  ["pass_completion_rate", "total_events", "defensive_actions"]

/-- `_detect_and_handle_anomalies`: returns early when fewer than 4
matches are present; otherwise removes every row whose `match_id` was
collected by any of the per-metric tests or the team test
(`~isin(anomalous_matches)`, line 429). -/
def detectAndHandleAnomalies (series : List MatchMetrics) : List MatchMetrics :=
  if series.length < 4 then series
  else
    let anomalous :=
      (metricsToCheck.map (anomalousIdsForMetric series)).flatten ++
        teamAnomalousIds series
    series.filter (fun m => !(anomalous.contains m.match_id))

/-- Date order used by `sort_values('match_date')`. -/
def dateLe (a b : MatchMetrics) : Prop := a.match_date ≤ b.match_date

instance : DecidableRel dateLe := fun a b =>
  inferInstanceAs (Decidable (a.match_date ≤ b.match_date))

instance : IsTotal MatchMetrics dateLe :=
  ⟨fun a b => Int.le_total a.match_date b.match_date⟩

instance : IsTrans MatchMetrics dateLe :=
  ⟨fun _ _ _ hab hbc => le_trans hab hbc⟩

/-- `self.performance_metrics.sort_values('match_date')` (line 342);
modelled by a comparison sort on the date field. -/
def sortByDate (l : List MatchMetrics) : List MatchMetrics :=
  List.insertionSort dateLe l

/-- `self.performance_metrics['match_num'] = range(1, len + 1)`
(line 345): assign consecutive numbers starting from `k` in list order. -/
def renumber (k : ℕ) : List MatchMetrics → List MatchMetrics
  | [] => []
  | m :: rest => { m with match_num := k } :: renumber (k + 1) rest

/-- The tail of `calculate_performance_metrics` after the per-match
metric records are built: filter anomalies, re-sort by date, reassign
`match_num` densely from 1. -/
def finalizeMetrics (series : List MatchMetrics) : List MatchMetrics :=
  renumber 1 (sortByDate (detectAndHandleAnomalies series))

theorem renumber_length (k : ℕ) (l : List MatchMetrics) :
    (renumber k l).length = l.length := by
  induction l generalizing k with
  | nil => rfl
  | cons m rest ih => simp [renumber, ih]

theorem renumber_map_num (k : ℕ) (l : List MatchMetrics) :
    (renumber k l).map (fun m => m.match_num) = List.range' k l.length := by
  induction l generalizing k with
  | nil => rfl
  | cons m rest ih => simp [renumber, List.range'_succ, ih]

theorem renumber_get_num (k : ℕ) (l : List MatchMetrics) (i : ℕ)
    (h : i < (renumber k l).length) :
    (renumber k l)[i].match_num = k + i := by
  induction l generalizing k i with
  | nil => simp [renumber] at h
  | cons m rest ih =>
    cases i with
    | zero => rfl
    | succ j =>
      have hj : j < (renumber (k + 1) rest).length := by
        simpa [renumber] using h
      have ih' := ih (k + 1) j hj
      simp only [renumber, List.getElem_cons_succ, ih']
      omega

theorem renumber_get_date (k : ℕ) (l : List MatchMetrics) (i : ℕ)
    (h : i < (renumber k l).length) (h' : i < l.length) :
    (renumber k l)[i].match_date = l[i].match_date := by
  induction l generalizing k i with
  | nil => simp [renumber] at h
  | cons m rest ih =>
    cases i with
    | zero => rfl
    | succ j =>
      have hj : j < (renumber (k + 1) rest).length := by
        simpa [renumber] using h
      have hj' : j < rest.length := by simpa using h'
      simpa [renumber] using ih (k + 1) j hj hj'

theorem sortByDate_sorted (l : List MatchMetrics) :
    List.Sorted dateLe (sortByDate l) :=
  List.sorted_insertionSort dateLe l

/-! ## Prediction engine (`services/ml_models.py`)

One row of the four metrics the engine reads
(`features = ['pass_completion_rate', 'total_events', 'total_passes',
'defensive_actions']`, ml_models.py line 227). -/
structure MetricsRow where
  pass_completion_rate : ℚ
  total_events : ℚ
  total_passes : ℚ
  defensive_actions : ℚ
  deriving DecidableEq, Repr

def features : List String :=
  ["pass_completion_rate", "total_events", "total_passes", "defensive_actions"]

/-- Column access `self.performance_metrics[feature].values`. -/
def getMetric (name : String) (m : MetricsRow) : ℚ :=
  if name = "pass_completion_rate" then m.pass_completion_rate
  else if name = "total_events" then m.total_events
  else if name = "total_passes" then m.total_passes
  else m.defensive_actions

/-- `[values[i] - values[i-1] for i in range(1, len(values))]`
(ml_models.py line 234). -/
def deltas (values : List ℚ) : List ℚ :=
  List.zipWith (fun a b => a - b) values.tail values

/-- Lines 235-242 of ml_models.py: average match-over-match change,
next value, percentage change (`avg_change / current_value` when the
current value is nonzero, else 0). -/
def trendPredict (values : List ℚ) : ℚ × ℚ :=
  let ds := deltas values
  let avgChange := ds.sum / (ds.length : ℚ)
  let currentValue := values.getLastD 0
  let nextValue := currentValue + avgChange
  let percChange := if currentValue ≠ 0 then avgChange / currentValue else 0
  (nextValue, percChange)

/-- Outcome of `predict_next_performance`.  `noResult` is the pair
`(None, None)`; `simpleTrend` carries, per feature, the predicted next
value and the percentage change of the limited-data path; the branch
that evaluates the trained sklearn champion models is kept abstract as
`modelBased`, since only which path is taken matters here. -/
inductive PredictOutcome where
  | noResult : PredictOutcome
  | simpleTrend : List (String × ℚ × ℚ) → PredictOutcome
  | modelBased : PredictOutcome
  deriving DecidableEq, Repr

/-- `predict_next_performance(self)` (ml_models.py 209-305).
`hasModels` is the truthiness of `self.models` (`if not self.models:
return None, None`); the series is `self.performance_metrics`. -/
def predictNextPerformance (hasModels : Bool) (series : List MetricsRow) :
    PredictOutcome :=
  if !hasModels then PredictOutcome.noResult
  else if series.length < 3 then PredictOutcome.noResult
  else if series.length < 5 then
    PredictOutcome.simpleTrend
      (features.map (fun f => (f, trendPredict (series.map (getMetric f)))))
  else PredictOutcome.modelBased

/-! ### Module structure of `services/ml_models.py` (for the method-lookup claim)

The `def` statements of the file in source order, each with the column
of its `def` keyword.  `predict_next_performance` (line 209) starts at
column 0, ending the `class PlayerPerformancePredictor` body; the two
defs after it sit at column 4 inside that module-level function and are
behind its unconditional `return`. -/
def mlModelsDefs : List (String × ℕ) :=
  [("__init__", 4),
   ("set_metrics", 4),
   ("create_time_series_features", 4),
   ("train_models", 4),
   ("predict_next_performance", 0),
   ("_alert_decline", 4),
   ("visualize_performance", 4)]

/-- The methods of `PlayerPerformancePredictor`: the defs of the class
body, which extends until the first statement back at column 0. -/
def predictorClassMethods : List String :=
  (mlModelsDefs.takeWhile (fun p => 0 < p.2)).map Prod.fst

/-- Attribute lookup `predictor.<name>` on an instance succeeds exactly
when the name is a method of the class (no instance attribute shadows
these names). -/
def predictorHasAttr (name : String) : Bool :=
  predictorClassMethods.contains name

/-- Outcome of the prediction step of `collect_player_data_task`
(tasks.py 51-53): reached only when `train_models()` returned True,
then `predictor.predict_next_performance()` is looked up and called. -/
inductive TaskOutcome where
  | predicted : TaskOutcome
  | attributeError : String → TaskOutcome
  | trainSkipped : TaskOutcome
  deriving DecidableEq, Repr

def pipelinePredictStep (trainOk : Bool) : TaskOutcome :=
  if trainOk then
    if predictorHasAttr "predict_next_performance" then TaskOutcome.predicted
    else TaskOutcome.attributeError "predict_next_performance"
  else TaskOutcome.trainSkipped

/-! ### Champion-model selection (`train_models`, ml_models.py 166-177) -/

/-- Held-out test MSE of the five regressors trained per metric. -/
structure ModelPerformances where
  neural_network : ℚ
  linear_regression : ℚ
  decision_tree : ℚ
  svm : ℚ
  random_forest : ℚ
  deriving DecidableEq, Repr

/-- `model_performances[name]` (total over the five names used). -/
def perfGet (p : ModelPerformances) (name : String) : ℚ :=
  if name = "neural_network" then p.neural_network
  else if name = "linear_regression" then p.linear_regression
  else if name = "decision_tree" then p.decision_tree
  else if name = "svm" then p.svm
  else if name = "random_forest" then p.random_forest
  else 0

/-- `self.best_model_types` (ml_models.py 20-25). -/
def bestModelTypes : List (String × String) :=
  [("pass_completion_rate", "neural_network"),
   ("total_events", "neural_network"),
   ("total_passes", "random_forest"),
   ("defensive_actions", "neural_network")]

/-- `self.best_model_types.get(feature, 'neural_network')` (line 167). -/
def pinnedBestType (feature : String) : String :=
  (bestModelTypes.lookup feature).getD "neural_network"

/-- Lines 168-177: take the pinned type's MSE; if it is suspiciously low
and the pinned type is the decision tree, fall back to whichever of
random forest and neural network has strictly lower MSE (ties go to the
neural network; the backup's stored MSE is `model_performances[backup]`,
inlined here per branch).  Returns the champion type and its MSE. -/
def championGuard (bestType : String) (p : ModelPerformances) : String × ℚ :=
  if perfGet p bestType < 1 / 10000 ∧ bestType = "decision_tree" then
    if p.random_forest < p.neural_network then
      ("random_forest", p.random_forest)
    else
      ("neural_network", p.neural_network)
  else (bestType, perfGet p bestType)

/-- Champion selection for one feature as `train_models` performs it. -/
def selectChampion (feature : String) (p : ModelPerformances) : String × ℚ :=
  championGuard (pinnedBestType feature) p

/-! ## Job orchestrator (`routes/players.py`)

### Concurrent `start` (`get_player_performances`, lines 142-190)

The handler, for one fixed key: read `player_cache` membership, then
read `active_jobs` membership, and if both misses, write the job entry
and spawn a background worker.  Each dictionary operation is atomic
(CPython dict under the GIL) but no lock spans the check and the write,
so two handler invocations interleave at those boundaries.  A call is a
small program over phases; a schedule says which of two calls performs
its next atomic step. -/

inductive StartResp where
  | cached : StartResp
  | progress : StartResp
  | accepted : StartResp
  deriving DecidableEq, Repr

inductive Phase where
  | start : Phase
  | cacheChecked : Phase
  | jobsChecked : Bool → Phase
  | finished : StartResp → Phase
  deriving DecidableEq, Repr

/-- Shared state for one job key: `player_id in player_cache`,
`player_id in active_jobs`, and how many background workers have been
spawned for the key. -/
structure Orch where
  cachePresent : Bool
  jobPresent : Bool
  workers : ℕ
  deriving DecidableEq, Repr

/-- One atomic step of one `get_player_performances` call. -/
def stepStart (s : Orch) (p : Phase) : Orch × Phase :=
  match p with
  | Phase.start =>
    if s.cachePresent then (s, Phase.finished StartResp.cached)
    else (s, Phase.cacheChecked)
  | Phase.cacheChecked => (s, Phase.jobsChecked s.jobPresent)
  | Phase.jobsChecked true => (s, Phase.finished StartResp.progress)
  | Phase.jobsChecked false =>
    ({ s with jobPresent := true, workers := s.workers + 1 },
      Phase.finished StartResp.accepted)
  | Phase.finished r => (s, Phase.finished r)

/-- Run two calls A and B under a schedule (`false` steps A, `true`
steps B). -/
def runSched (s : Orch) (pa pb : Phase) : List Bool → Orch × Phase × Phase
  | [] => (s, pa, pb)
  | c :: rest =>
    if c then
      let sb := stepStart s pb
      runSched sb.1 pa sb.2 rest
    else
      let sa := stepStart s pa
      runSched sa.1 sa.2 pb rest

/-- Key absent, nothing cached, no worker yet. -/
def orchIdle : Orch := ⟨false, false, 0⟩

/-- Key already running (an `active_jobs` entry exists), nothing
cached. -/
def orchRunning (w : ℕ) : Orch := ⟨false, true, w⟩

/-- Phases reachable by a `start` call while the key stays running:
such a call never commits a new worker and can only finish with the
progress response. -/
def phaseSafe : Phase → Bool
  | Phase.start => true
  | Phase.cacheChecked => true
  | Phase.jobsChecked true => true
  | Phase.finished StartResp.progress => true
  | _ => false

/-! ### `poll` (`get_performance_status`, lines 192-214)

Per key: the `active_jobs` entry if any, else the `player_cache` entry
if any, else a 404 not-found.  The handler reads no clock and no TTL;
`now` is threaded through the model to state exactly that. -/

/-- An `active_jobs` value: its status string, optional payload, and
message. -/
structure JobRecord where
  status : String
  data : Option (List ℚ)
  message : String
  deriving DecidableEq, Repr

/-- A `player_cache` value: payload and the `time.time()` stamp stored
with it (players.py lines 53-56). -/
structure CacheEntry where
  data : List ℚ
  timestamp : ℤ
  deriving DecidableEq, Repr

inductive PollResult where
  | jobInfo : JobRecord → PollResult
  | completedFromCache : List ℚ → PollResult
  | notFound : PollResult
  deriving DecidableEq, Repr

def getPerformanceStatus (activeJob : Option JobRecord)
    (cacheEntry : Option CacheEntry) (_now : ℤ) : PollResult :=
  match activeJob with
  | some j => PollResult.jobInfo j
  | none =>
    match cacheEntry with
    | some e => PollResult.completedFromCache e.data
    | none => PollResult.notFound

/-- The cache TTL the result store is written with elsewhere in the
system (`cache.set(..., timeout=86400)`, tasks.py line 90).  The poll
handler above never consults it. -/
def cacheTtlSeconds : ℤ := 86400

/-! ## Simple-predictions route (`routes/predictions.py`)

`generate_simple_predictions` (lines 39-59): per metric a fresh
`random.random()` draw, modelled as `rand i` for the i-th metric of the
loop; `change = rand * 0.1 - 0.05`; predicted value
`current * (1 + change)` from the last row of the series. -/

def defaultRow : MetricsRow := ⟨0, 0, 0, 0⟩

/-- The loop body of `generate_simple_predictions`: one entry per
metric, drawing a fresh random value (`rand i` for the i-th iteration);
`change = rand * 0.1 - 0.05`, predicted value `current * (1 + change)`. -/
def simplePredList (rand : ℕ → ℚ) (latest : MetricsRow) :
    ℕ → List String → List (String × ℚ × ℚ × ℚ)
  | _, [] => []
  | i, f :: rest =>
    (f, getMetric f latest,
      getMetric f latest * (1 + (rand i * (1 / 10) - 1 / 20)),
      rand i * (1 / 10) - 1 / 20) :: simplePredList rand latest (i + 1) rest

/-- Per-metric payload: (metric, current_value, predicted_value,
percentage_change), computed from the last row of the series
(`performance_metrics.iloc[-1]`). -/
def generateSimplePredictions (rand : ℕ → ℚ) (series : List MetricsRow) :
    List (String × ℚ × ℚ × ℚ) :=
  simplePredList rand (series.getLastD defaultRow) 0 features

/-- Response of the prediction endpoint once performance data is in
hand (predictions.py lines 86-122): fewer than 4 matches short-circuits
into the randomized simple predictions; otherwise the ML train/predict
path runs (kept abstract). -/
inductive RouteResult where
  | simplePreds : List (String × ℚ × ℚ × ℚ) → RouteResult
  | mlPath : RouteResult
  deriving DecidableEq, Repr

def predictRoute (rand : ℕ → ℚ) (series : List MetricsRow) : RouteResult :=
  if series.length < 4 then
    RouteResult.simplePreds (generateSimplePredictions rand series)
  else RouteResult.mlPath

/-! ## Concrete data used by witnesses and counterexamples -/

/-- A 2-match metrics series (dates already ascending). -/
def demoShortSeries : List MatchMetrics :=
  [⟨1, 10, 4/5, 30, 5, none, 0⟩, ⟨2, 12, 3/5, 25, 4, some (7/10), 0⟩]

/-- A single pass event whose outcome is recorded (an incomplete pass). -/
def demoIncompletePass : List EventRow :=
  [⟨"Pass", some "Incomplete", none⟩]

/-- Per-metric model errors with a suspiciously small decision-tree MSE
and the random forest beating the neural network. -/
def demoPerf : ModelPerformances :=
  ⟨3/1000, 5/1000, 1/20000, 4/1000, 2/1000⟩

def demoRows2 : List MetricsRow :=
  [⟨4/5, 30, 20, 5⟩, ⟨3/5, 28, 18, 4⟩]

def demoRows3 : List MetricsRow :=
  [⟨4/5, 30, 20, 5⟩, ⟨7/10, 28, 18, 4⟩, ⟨3/4, 32, 22, 6⟩]

def demoRows5 : List MetricsRow :=
  [⟨4/5, 30, 20, 5⟩, ⟨7/10, 28, 18, 4⟩, ⟨3/4, 32, 22, 6⟩,
   ⟨4/5, 31, 21, 5⟩, ⟨7/10, 29, 19, 4⟩]

/-- A completed-result cache entry stored at time 0. -/
def demoCacheEntry : CacheEntry := ⟨[3, 5], 0⟩

/-! ## Helper lemmas -/

/-- The overfit guard of `train_models` never leaves a decision-tree
champion whose MSE is below the 1e-4 epsilon, whatever the pinned type
and the measured errors. -/
theorem perfGet_nn (p : ModelPerformances) :
    perfGet p "neural_network" = p.neural_network := rfl

theorem perfGet_dt (p : ModelPerformances) :
    perfGet p "decision_tree" = p.decision_tree := rfl

theorem perfGet_rf (p : ModelPerformances) :
    perfGet p "random_forest" = p.random_forest := rfl

theorem championGuard_no_cheap_tree (bt : String) (p : ModelPerformances) :
    ¬ ((championGuard bt p).1 = "decision_tree" ∧
        (championGuard bt p).2 < 1 / 10000) := by
  unfold championGuard
  by_cases hcond : perfGet p bt < 1 / 10000 ∧ bt = "decision_tree"
  · rw [if_pos hcond]
    by_cases hrf : p.random_forest < p.neural_network
    · rw [if_pos hrf]
      rintro ⟨h1, _⟩
      simp at h1
    · rw [if_neg hrf]
      rintro ⟨h1, _⟩
      simp at h1
  · rw [if_neg hcond]
    rintro ⟨h1, h2⟩
    exact hcond ⟨by simpa [h1] using h2, h1⟩

/-! ## Claims -/

/-- **C10**: for every performance series containing fewer than 4
matches, the anomaly filter is a no-op: it returns the series
unchanged, removing no matches. -/
theorem c10_anomaly_filter_noop (series : List MatchMetrics)
    (h : series.length < 4) :
    detectAndHandleAnomalies series = series := by
  simp [detectAndHandleAnomalies, h]

theorem c10_anomaly_filter_noop_witness :
    demoShortSeries.length < 4 ∧
    detectAndHandleAnomalies demoShortSeries = demoShortSeries :=
  ⟨by decide, c10_anomaly_filter_noop demoShortSeries (by decide)⟩

/-- **C9**: when the underlying call always raises, the throttled
fetcher makes exactly 3 attempts, sleeps 1 then 2 seconds between them
(a strictly increasing, doubling delay), and surfaces the final error
to the caller. -/
theorem c9_throttled_retries (α : Type) (errs : ℕ → String) :
    throttledRequest (fun n => (Except.error (errs n) : Except String α)) =
      (3, [1, 2], Except.error (errs 2)) ∧
    List.Chain' (· < ·) [1, 2] := by
  constructor
  · rfl
  · simp

/-- **C2**: `predict_next_performance` is defined at column 0 of
`services/ml_models.py`, outside the class body, so it is not a method
of `PlayerPerformancePredictor`; consequently a pipeline run in which
`train_models` succeeds fails at the prediction step with an
attribute-lookup error. -/
theorem c2_predict_not_a_method :
    "predict_next_performance" ∉ predictorClassMethods ∧
    pipelinePredictStep true =
      TaskOutcome.attributeError "predict_next_performance" := by
  constructor
  · decide
  · rfl

/-- **C3**: champion-model selection never returns a decision-tree
champion with held-out test MSE below 1e-4: for any pinned type and any
measured errors the guard keeps that invariant, and whenever the
selection would be a decision tree with MSE below the epsilon it is
replaced by whichever of the random forest and the neural network has
the lower test MSE. -/
theorem c3_champion_never_overfit_tree (bt feature : String)
    (p : ModelPerformances) :
    (¬ ((championGuard bt p).1 = "decision_tree" ∧
        (championGuard bt p).2 < 1 / 10000)) ∧
    (¬ ((selectChampion feature p).1 = "decision_tree" ∧
        (selectChampion feature p).2 < 1 / 10000)) ∧
    (bt = "decision_tree" → p.decision_tree < 1 / 10000 →
      (championGuard bt p).2 = min p.random_forest p.neural_network ∧
      ((championGuard bt p).1 = "random_forest" ∨
        (championGuard bt p).1 = "neural_network")) := by
  refine ⟨championGuard_no_cheap_tree bt p,
    championGuard_no_cheap_tree (pinnedBestType feature) p, ?_⟩
  intro hbt hdt
  subst hbt
  have hc : perfGet p "decision_tree" < 1 / 10000 := by
    rw [perfGet_dt]
    exact hdt
  unfold championGuard
  rw [if_pos ⟨hc, rfl⟩]
  by_cases hrf : p.random_forest < p.neural_network
  · rw [if_pos hrf]
    exact ⟨(min_eq_left hrf.le).symm, Or.inl rfl⟩
  · rw [if_neg hrf]
    exact ⟨(min_eq_right (le_of_not_lt hrf)).symm, Or.inr rfl⟩

theorem c3_champion_witness :
    (demoPerf.decision_tree < 1 / 10000) ∧
    (¬ ((championGuard "decision_tree" demoPerf).1 = "decision_tree" ∧
        (championGuard "decision_tree" demoPerf).2 < 1 / 10000)) ∧
    (championGuard "decision_tree" demoPerf).2 =
      min demoPerf.random_forest demoPerf.neural_network :=
  ⟨by norm_num [demoPerf],
   (c3_champion_never_overfit_tree "decision_tree" "total_passes" demoPerf).1,
   ((c3_champion_never_overfit_tree "decision_tree" "total_passes"
      demoPerf).2.2 rfl (by norm_num [demoPerf])).1⟩

/-- **C6 (counterexample)**: a match with exactly one pass whose outcome
is recorded gives `pass_completion_rate = 0` with `total_passes = 1`,
so the rate is not zero exactly when `total_passes = 0`. -/
theorem c6_rate_zero_counterexample :
    passCompletionRate demoIncompletePass = 0 ∧
    totalPasses demoIncompletePass = 1 ∧
    ¬ (passCompletionRate demoIncompletePass = 0 ↔
        totalPasses demoIncompletePass = 0) := by
  have ht : totalPasses demoIncompletePass = 1 := rfl
  have hc : completedPasses demoIncompletePass = 0 := rfl
  have hr : passCompletionRate demoIncompletePass = 0 := by
    simp [passCompletionRate, ht, hc]
  refine ⟨hr, ht, fun hiff => ?_⟩
  have h0 := hiff.mp hr
  rw [ht] at h0
  exact one_ne_zero h0

/-- **C6 (amended)**: for every derived match, `pass_completion_rate`
lies in `[0, 1]`, and it is zero exactly when `completed_passes = 0`
(no pass was completed) — which holds when `total_passes = 0` but also
when every attempted pass has a recorded (non-completed) outcome. -/
theorem c6_rate_bounds_and_zero_iff (evs : List EventRow) :
    0 ≤ passCompletionRate evs ∧ passCompletionRate evs ≤ 1 ∧
    (passCompletionRate evs = 0 ↔ completedPasses evs = 0) := by
  unfold passCompletionRate
  by_cases h : 0 < totalPasses evs
  · have hle := completedPasses_le_totalPasses evs
    have ht : (0 : ℚ) < (totalPasses evs : ℚ) := by exact_mod_cast h
    rw [if_pos h]
    refine ⟨div_nonneg (by positivity) ht.le, ?_, ?_⟩
    · rw [div_le_one ht]
      exact_mod_cast hle
    · rw [div_eq_zero_iff]
      constructor
      · rintro (hc | htz)
        · exact_mod_cast hc
        · exact absurd htz (ne_of_gt ht)
      · intro hc
        left
        exact_mod_cast hc
  · have ht : totalPasses evs = 0 := Nat.eq_zero_of_not_pos h
    have hc : completedPasses evs = 0 :=
      Nat.le_zero.mp (ht ▸ completedPasses_le_totalPasses evs)
    simp [h, hc]

/-- **C1**: with trained models in hand, `predict_next_performance`
returns the no-prediction result for a series of fewer than 3 matches,
takes the trend-extrapolation path (average match-over-match delta
added to the last value; percentage change `delta / current`, 0 when
the current value is 0) for 3 or 4 matches, and runs the trained
champion models for 5 or more matches.  The short-series branch returns
no prediction whether or not models are present. -/
theorem c1_prediction_paths (hasModels : Bool) (series : List MetricsRow) :
    (series.length < 3 →
      predictNextPerformance hasModels series = PredictOutcome.noResult) ∧
    (hasModels = true → 3 ≤ series.length → series.length < 5 →
      predictNextPerformance hasModels series =
        PredictOutcome.simpleTrend (features.map (fun f =>
          let values := series.map (getMetric f)
          let ds := deltas values
          (f, values.getLastD 0 + ds.sum / (ds.length : ℚ),
            if values.getLastD 0 ≠ 0 then
              (ds.sum / (ds.length : ℚ)) / values.getLastD 0
            else 0)))) ∧
    (hasModels = true → 5 ≤ series.length →
      predictNextPerformance hasModels series = PredictOutcome.modelBased) := by
  refine ⟨?_, ?_, ?_⟩
  · intro h3
    cases hasModels
    · rfl
    · simp [predictNextPerformance, h3]
  · intro hm h3 h5
    subst hm
    have h3' : ¬ series.length < 3 := not_lt.mpr h3
    simp [predictNextPerformance, h3', h5, trendPredict]
  · intro hm h5
    subst hm
    have h3' : ¬ series.length < 3 := by omega
    have h5' : ¬ series.length < 5 := not_lt.mpr h5
    simp [predictNextPerformance, h3', h5']

theorem c1_prediction_paths_witness :
    predictNextPerformance true [defaultRow] = PredictOutcome.noResult ∧
    predictNextPerformance true demoRows3 =
      PredictOutcome.simpleTrend (features.map (fun f =>
        let values := demoRows3.map (getMetric f)
        let ds := deltas values
        (f, values.getLastD 0 + ds.sum / (ds.length : ℚ),
          if values.getLastD 0 ≠ 0 then
            (ds.sum / (ds.length : ℚ)) / values.getLastD 0
          else 0))) ∧
    predictNextPerformance true demoRows5 = PredictOutcome.modelBased :=
  ⟨(c1_prediction_paths true [defaultRow]).1 (by decide),
   (c1_prediction_paths true demoRows3).2.1 rfl (by decide) (by decide),
   (c1_prediction_paths true demoRows5).2.2 rfl (by decide)⟩

/-- **C7**: after the anomaly filter, the re-sort by date and the
renumbering (`calculate_performance_metrics` lines 338-345), the
series carries `match_num = 1..N` in list order, assigned ascending by
`match_date`, so `match_num` is strictly increasing with
`match_date`. -/
theorem c7_match_num_dense_increasing (series : List MatchMetrics) :
    (finalizeMetrics series).map (fun m => m.match_num) =
      List.range' 1 (finalizeMetrics series).length ∧
    ∀ i j (hi : i < (finalizeMetrics series).length)
      (hj : j < (finalizeMetrics series).length),
      (finalizeMetrics series)[i].match_date <
        (finalizeMetrics series)[j].match_date →
      (finalizeMetrics series)[i].match_num <
        (finalizeMetrics series)[j].match_num := by
  constructor
  · have h1 := renumber_map_num 1 (sortByDate (detectAndHandleAnomalies series))
    have h2 := renumber_length 1 (sortByDate (detectAndHandleAnomalies series))
    unfold finalizeMetrics
    rw [h1, h2]
  · intro i j hi hj hdate
    have hlen := renumber_length 1 (sortByDate (detectAndHandleAnomalies series))
    have hiL : i < (sortByDate (detectAndHandleAnomalies series)).length := by
      unfold finalizeMetrics at hi
      omega
    have hjL : j < (sortByDate (detectAndHandleAnomalies series)).length := by
      unfold finalizeMetrics at hj
      omega
    unfold finalizeMetrics at hdate hi hj ⊢
    rw [renumber_get_num 1 _ i hi, renumber_get_num 1 _ j hj]
    rw [renumber_get_date 1 _ i hi hiL, renumber_get_date 1 _ j hj hjL] at hdate
    rcases lt_trichotomy i j with h | h | h
    · omega
    · subst h
      exact absurd hdate (lt_irrefl _)
    · have hs := sortByDate_sorted (detectAndHandleAnomalies series)
      have hle := hs.rel_get_of_lt
        (show (⟨j, hjL⟩ : Fin _) < ⟨i, hiL⟩ from Fin.mk_lt_mk.mpr h)
      unfold dateLe at hle
      rw [List.get_eq_getElem, List.get_eq_getElem] at hle
      exact absurd hdate (not_lt.mpr hle)

theorem c7_match_num_witness :
    ((finalizeMetrics demoShortSeries).map (fun m => m.match_num) =
      List.range' 1 (finalizeMetrics demoShortSeries).length) ∧
    ((finalizeMetrics demoShortSeries).get ⟨0, by decide⟩).match_num <
      ((finalizeMetrics demoShortSeries).get ⟨1, by decide⟩).match_num :=
  ⟨(c7_match_num_dense_increasing demoShortSeries).1,
   (c7_match_num_dense_increasing demoShortSeries).2 0 1 (by decide) (by decide)
     (by decide)⟩

/-- Any single step of a `start` call taken while the key is running
leaves the shared state untouched and keeps the call in a phase from
which it can only report progress. -/
theorem stepStart_running (w : ℕ) (p : Phase) (hp : phaseSafe p = true) :
    (stepStart (orchRunning w) p).1 = orchRunning w ∧
    phaseSafe (stepStart (orchRunning w) p).2 = true := by
  cases p with
  | start => exact ⟨rfl, rfl⟩
  | cacheChecked => exact ⟨rfl, rfl⟩
  | jobsChecked saw =>
    cases saw
    · exact absurd hp (by decide)
    · exact ⟨rfl, rfl⟩
  | finished r => exact ⟨rfl, hp⟩

theorem runSched_running (sched : List Bool) : ∀ (pa pb : Phase) (w : ℕ),
    phaseSafe pa = true → phaseSafe pb = true →
    (runSched (orchRunning w) pa pb sched).1 = orchRunning w ∧
    phaseSafe (runSched (orchRunning w) pa pb sched).2.1 = true ∧
    phaseSafe (runSched (orchRunning w) pa pb sched).2.2 = true := by
  induction sched with
  | nil => exact fun pa pb w hpa hpb => ⟨rfl, hpa, hpb⟩
  | cons c rest ih =>
    intro pa pb w hpa hpb
    cases c
    · have h := stepStart_running w pa hpa
      have heq : runSched (orchRunning w) pa pb (false :: rest) =
          runSched (stepStart (orchRunning w) pa).1
            (stepStart (orchRunning w) pa).2 pb rest := rfl
      rw [heq, h.1]
      exact ih _ pb w h.2 hpb
    · have h := stepStart_running w pb hpb
      have heq : runSched (orchRunning w) pa pb (true :: rest) =
          runSched (stepStart (orchRunning w) pb).1 pa
            (stepStart (orchRunning w) pb).2 rest := rfl
      rw [heq, h.1]
      exact ih pa _ w hpa h.2

/-- **C4 (amended)**: while the key is already running, two `start`
calls never spawn a worker under any interleaving — the worker count is
unchanged, the job entry stays present, and neither call can finish
with the spawned-a-job response. -/
theorem c4_no_duplicate_when_running (sched : List Bool) (w : ℕ) :
    (runSched (orchRunning w) Phase.start Phase.start sched).1.workers = w ∧
    (runSched (orchRunning w) Phase.start Phase.start sched).1.jobPresent = true ∧
    (runSched (orchRunning w) Phase.start Phase.start sched).2.1 ≠
      Phase.finished StartResp.accepted ∧
    (runSched (orchRunning w) Phase.start Phase.start sched).2.2 ≠
      Phase.finished StartResp.accepted := by
  have h := runSched_running sched Phase.start Phase.start w rfl rfl
  refine ⟨by rw [h.1]; rfl, by rw [h.1]; rfl, fun heq => ?_, fun heq => ?_⟩
  · have hsafe := h.2.1
    rw [heq] at hsafe
    exact absurd hsafe (by decide)
  · have hsafe := h.2.2
    rw [heq] at hsafe
    exact absurd hsafe (by decide)

/-- **C4 (counterexample)**: the check-and-set of
`get_player_performances` is not atomic.  From the absent state, the
interleaving A,B,A,B,A,B lets both calls pass the membership check
before either writes, so both spawn a worker (2 workers, both calls
answer `accepted`), whereas either serial order spawns exactly one
worker. -/
theorem c4_nonatomic_counterexample :
    (runSched orchIdle Phase.start Phase.start
      [false, true, false, true, false, true]).1.workers = 2 ∧
    (runSched orchIdle Phase.start Phase.start
      [false, true, false, true, false, true]).2.1 =
        Phase.finished StartResp.accepted ∧
    (runSched orchIdle Phase.start Phase.start
      [false, true, false, true, false, true]).2.2 =
        Phase.finished StartResp.accepted ∧
    (runSched orchIdle Phase.start Phase.start
      [false, false, false, true, true, true]).1.workers = 1 ∧
    (runSched orchIdle Phase.start Phase.start
      [true, true, true, false, false, false]).1.workers = 1 := by
  decide

/-- **C5 (amended)**: for a series of fewer than 4 matches the
prediction route returns the randomized simple predictions — a
fabricated payload, not a typed insufficient-data result — while
`predict_next_performance` itself returns the typed no-prediction
result below 3 matches. -/
theorem c5_insufficient_data_paths (rand : ℕ → ℚ) (hm : Bool)
    (series : List MetricsRow) (h4 : series.length < 4) :
    predictRoute rand series =
      RouteResult.simplePreds
        (simplePredList rand (series.getLastD defaultRow) 0 features) ∧
    (series.length < 3 →
      predictNextPerformance hm series = PredictOutcome.noResult) := by
  constructor
  · simp [predictRoute, h4, generateSimplePredictions]
  · intro h3
    cases hm
    · rfl
    · simp [predictNextPerformance, h3]

theorem c5_insufficient_data_witness :
    predictRoute (fun _ => 0) demoRows2 =
      RouteResult.simplePreds
        (simplePredList (fun _ => 0) (demoRows2.getLastD defaultRow) 0
          features) ∧
    predictNextPerformance true demoRows2 = PredictOutcome.noResult :=
  ⟨(c5_insufficient_data_paths (fun _ => 0) true demoRows2 (by decide)).1,
   (c5_insufficient_data_paths (fun _ => 0) true demoRows2 (by decide)).2
     (by decide)⟩

/-- **C5 (counterexample)**: a 2-match series fed to the prediction
route yields a concrete prediction payload (here with the random draw
fixed to 0: every metric scaled by 19/20), and the payload changes with
the random draw — a fabricated prediction, not an insufficient-data
result. -/
theorem c5_fabrication_counterexample :
    predictRoute (fun _ => 0) demoRows2 =
      RouteResult.simplePreds
        [("pass_completion_rate", 3/5, 57/100, -(1/20)),
         ("total_events", 28, 133/5, -(1/20)),
         ("total_passes", 18, 171/10, -(1/20)),
         ("defensive_actions", 4, 19/5, -(1/20))] ∧
    predictRoute (fun _ => 0) demoRows2 ≠
      predictRoute (fun _ => 1/2) demoRows2 := by
  constructor
  · norm_num +decide [predictRoute, demoRows2, generateSimplePredictions,
      simplePredList, features, getMetric, defaultRow]
  · norm_num +decide [predictRoute, demoRows2, generateSimplePredictions,
      simplePredList, features, getMetric, defaultRow]

/-- **C8 (amended)**: `poll` never consults a clock or TTL: its answer
is the same at every time, and a completed cache entry with no active
job is served as the completed payload forever (it never reverts to
not-found). -/
theorem c8_poll_ignores_ttl (j : Option JobRecord) (e : CacheEntry)
    (t s : ℤ) :
    getPerformanceStatus j (some e) t = getPerformanceStatus j (some e) s ∧
    (j = none →
      getPerformanceStatus j (some e) t =
        PollResult.completedFromCache e.data) := by
  cases j <;> simp [getPerformanceStatus]

theorem c8_poll_ignores_ttl_witness :
    getPerformanceStatus none (some demoCacheEntry) 0 =
      getPerformanceStatus none (some demoCacheEntry) 1000000 ∧
    getPerformanceStatus none (some demoCacheEntry) 0 =
      PollResult.completedFromCache demoCacheEntry.data :=
  ⟨(c8_poll_ignores_ttl none demoCacheEntry 0 1000000).1,
   (c8_poll_ignores_ttl none demoCacheEntry 0 1000000).2 rfl⟩

/-- **C8 (counterexample)**: a result cached at time 0 and polled at
time 1000000 — far beyond the 86400-second TTL the result store is
written with — is still returned as the completed payload, not reported
absent. -/
theorem c8_ttl_counterexample :
    cacheTtlSeconds < (1000000 : ℤ) - demoCacheEntry.timestamp ∧
    getPerformanceStatus none (some demoCacheEntry) 1000000 =
      PollResult.completedFromCache demoCacheEntry.data ∧
    getPerformanceStatus none (some demoCacheEntry) 1000000 ≠
      PollResult.notFound := by
  refine ⟨by norm_num [cacheTtlSeconds, demoCacheEntry], rfl, fun h => ?_⟩
  exact PollResult.noConfusion h

end PlayPulse
